import Mathlib

/-!
Verification of the CodeScope frontend core against its specification.

The development shallowly embeds the parts of the TypeScript source that the
claims refer to:

- the file-tree conversion and its helpers
  (src/frontend/src/components/FileTreePanel.tsx),
- the analysis-status update paths fed by the WebSocket push handler and the
  polling query effect (same file),
- the WebSocket reconnection handler (same file),
- the graph fetch postprocessing and node-click selection handling
  (src/frontend/src/components/GraphPanel.tsx),
- the shared selection store (src/frontend/src/store.ts),
- the file-size formatting helper (FileTreePanel.tsx and InspectorPanel.tsx).

JavaScript numbers that only ever hold exact dyadic values in the modelled
code paths are embedded as rationals; JavaScript strings as Lean strings;
records keyed by strings as association lists in insertion order, matching
the iteration order of Object.entries for string keys; the stable
Array.prototype.sort with a comparator as a stable insertion sort with
respect to the relation comparator a b le 0.
-/

namespace CodeScope

/-! ## Data model of the repository snapshot (FileTreePanel.tsx lines 28 to 81) -/

/-- Entry of the flat files array of a snapshot: interface fields path, hash,
size (FileTreePanel.tsx lines 41 to 45). -/
structure FileEntry where
  path : String
  hash : String
  size : Nat
deriving DecidableEq, Repr

/-- Nested folder record: interface FolderData with a folders record and a
files array (FileTreePanel.tsx lines 39 to 46). The record of subfolders is
embedded as an association list in insertion order. -/
inductive FolderData : Type where
  | mk : List (String × FolderData) → List FileEntry → FolderData
deriving Repr

/-- Accessor for the folders field of FolderData. -/
def FolderData.folders : FolderData → List (String × FolderData)
  | .mk fs _ => fs

/-- Accessor for the files field of FolderData. -/
def FolderData.files : FolderData → List FileEntry
  | .mk _ fl => fl

/-- Top-level repository structure: interface RepoStructure
(FileTreePanel.tsx lines 48 to 59). -/
structure RepoStructure where
  id : String
  name : String
  url : String
  branch : String
  folders : List (String × FolderData)
  files : List FileEntry

/-- Metadata attached to a file tree node: the data field with size and hash
(FileTreePanel.tsx lines 77 to 80). -/
structure FileMeta where
  size : Nat
  hash : String
deriving DecidableEq, Repr

/-- Discriminator of tree nodes: the type field, folder or file
(FileTreePanel.tsx line 75). -/
inductive NodeType where
  | folder
  | file
deriving DecidableEq, Repr

/-- Tree node produced by the conversion: interface TreeNode with id, name,
type, children and optional data (FileTreePanel.tsx lines 72 to 81). File
nodes carry an empty children list, standing for the absent children field. -/
inductive TreeNode : Type where
  | mk : String → String → NodeType → List TreeNode → Option FileMeta → TreeNode
deriving Repr

/-- Accessor for the id field of a tree node. -/
def TreeNode.id : TreeNode → String
  | .mk i _ _ _ _ => i

/-- Accessor for the name field of a tree node. -/
def TreeNode.name : TreeNode → String
  | .mk _ n _ _ _ => n

/-- Accessor for the type field of a tree node. -/
def TreeNode.type : TreeNode → NodeType
  | .mk _ _ t _ _ => t

/-- Accessor for the children field of a tree node. -/
def TreeNode.children : TreeNode → List TreeNode
  | .mk _ _ _ c _ => c

/-- Accessor for the data field of a tree node. -/
def TreeNode.data : TreeNode → Option FileMeta
  | .mk _ _ _ _ d => d

/-! ## Path helpers used by convertToTreeNodes (FileTreePanel.tsx lines 318 to 327) -/

/-- Characters of the parent directory of a path: everything before the last
slash, or the empty list when there is none. Embeds the computation
lastSlashIndex equals lastIndexOf of the slash, parentDir equals the empty
string when the index is minus one and otherwise substring up to the index
(FileTreePanel.tsx lines 320 to 322). -/
def parentDirChars (cs : List Char) : List Char :=
  match cs.reverse.dropWhile (fun c => c ≠ '/') with
  | [] => []
  | _ :: rest => rest.reverse

/-- Parent directory of a slash separated path, as in the childFiles filter
of convertToTreeNodes (FileTreePanel.tsx lines 320 to 322). -/
def parentDir (s : String) : String :=
  String.mk (parentDirChars s.data)

/-- Characters after the last slash of a path. -/
def baseNameChars (cs : List Char) : List Char :=
  (cs.reverse.takeWhile (fun c => c ≠ '/')).reverse

/-- Base name of a path as computed by path.split of the slash, then pop,
with fallback to the whole path when the popped segment is the empty string
(FileTreePanel.tsx line 327). -/
def baseName (s : String) : String :=
  let last := String.mk (baseNameChars s.data)
  if last = "" then s else last

/-- Path concatenation as in currentPath: parentPath concatenated with a
slash and the name when parentPath is nonempty, otherwise the name alone
(FileTreePanel.tsx line 315). -/
def joinPath (parentPath name : String) : String :=
  if parentPath = "" then name else parentPath ++ "/" ++ name

/-- True when the path contains a slash, as in the root-level files filter
path.includes of the slash (FileTreePanel.tsx line 354). -/
def containsSlash (s : String) : Bool := s.data.contains '/'

/-- Mapping of a flat file entry to a tree node: id is the full path, name is
the base name, type is file, data holds size and hash
(FileTreePanel.tsx lines 325 to 330 and 355 to 360). -/
def fileToTreeNode (f : FileEntry) : TreeNode :=
  .mk f.path (baseName f.path) .file [] (some ⟨f.size, f.hash⟩)

/-! ## Child ordering (FileTreePanel.tsx lines 339 to 344 and 362 to 366) -/

/-- Numeric rank of a node type, folders before files. -/
def typeRank : NodeType → Nat
  | .folder => 0
  | .file => 1

/-- Relation corresponding to comparator a b le 0 for the child sort
comparator of convertToTreeNodes: folders sort before files, nodes of equal
type sort by name (the source compares names with localeCompare, embedded
here as the string order). -/
def nodeLe (a b : TreeNode) : Prop :=
  typeRank a.type < typeRank b.type ∨
    (typeRank a.type = typeRank b.type ∧ a.name ≤ b.name)

instance : DecidableRel nodeLe := fun a b => by
  unfold nodeLe; infer_instance

instance : IsTotal TreeNode nodeLe := ⟨by
  intro a b
  unfold nodeLe
  rcases Nat.lt_trichotomy (typeRank a.type) (typeRank b.type) with h | h | h
  · exact Or.inl (Or.inl h)
  · rcases le_total a.name b.name with hn | hn
    · exact Or.inl (Or.inr ⟨h, hn⟩)
    · exact Or.inr (Or.inr ⟨h.symm, hn⟩)
  · exact Or.inr (Or.inl h)⟩

instance : IsTrans TreeNode nodeLe := ⟨by
  intro a b c hab hbc
  unfold nodeLe at *
  rcases hab with h1 | ⟨h1, h1n⟩ <;> rcases hbc with h2 | ⟨h2, h2n⟩
  · exact Or.inl (h1.trans h2)
  · exact Or.inl (h2 ▸ h1)
  · exact Or.inl (h1 ▸ h2)
  · exact Or.inr ⟨h1.trans h2, h1n.trans h2n⟩⟩

/-! ## Conversion of the nested snapshot (FileTreePanel.tsx lines 306 to 367) -/

/-- Recursive processing of a folder record, embedding processFolder
(FileTreePanel.tsx lines 313 to 347). For each entry the current path is
formed, the direct child files are selected from the top-level flat files
array by comparing parent directories, subfolders are processed recursively,
and the children are sorted with the child comparator. Note that the files
array stored inside the FolderData value is bound but never read, exactly as
in the source. -/
def processFolder (allFiles : List FileEntry) :
    List (String × FolderData) → String → List TreeNode
  | [], _ => []
  | (name, FolderData.mk subFolders _) :: rest, parentPath =>
    let currentPath := joinPath parentPath name
    let childFiles :=
      (allFiles.filter (fun f => parentDir f.path == currentPath)).map fileToTreeNode
    let childFolders := processFolder allFiles subFolders currentPath
    TreeNode.mk currentPath name .folder
        (List.insertionSort nodeLe (childFolders ++ childFiles)) none
      :: processFolder allFiles rest parentPath

/-- Embedding of convertToTreeNodes (FileTreePanel.tsx lines 306 to 367):
for an undefined structure the empty list, otherwise the processed root
folders followed by the root-level files, sorted by the same comparator. -/
def convertToTreeNodes : Option RepoStructure → List TreeNode
  | none => []
  | some s =>
    let allFiles := s.files
    let rootFolders := processFolder allFiles s.folders ""
    let rootFiles :=
      (allFiles.filter (fun f => !(containsSlash f.path))).map fileToTreeNode
    List.insertionSort nodeLe (rootFolders ++ rootFiles)

/-- Ids of every node of a forest, in preorder. -/
def forestIds : List TreeNode → List String
  | [] => []
  | TreeNode.mk i _ _ cs _ :: rest => i :: (forestIds cs ++ forestIds rest)

/-- Predicate stating that the children list of every node of a tree is
sorted by the child comparator relation. -/
inductive WellSorted : TreeNode → Prop where
  | mk : ∀ (i n : String) (ty : NodeType) (children : List TreeNode)
      (d : Option FileMeta),
      List.Sorted nodeLe children →
      (∀ c ∈ children, WellSorted c) →
      WellSorted (TreeNode.mk i n ty children d)

theorem wellSorted_fileToTreeNode (f : FileEntry) : WellSorted (fileToTreeNode f) :=
  WellSorted.mk _ _ _ _ _ List.sorted_nil (by intro c hc; cases hc)

theorem processFolder_wellSorted (allFiles : List FileEntry)
    (entries : List (String × FolderData)) (parentPath : String) :
    ∀ t ∈ processFolder allFiles entries parentPath, WellSorted t := by
  induction entries, parentPath using processFolder.induct allFiles with
  | case1 parentPath => intro t ht; simp [processFolder] at ht
  | case2 name subFolders subFiles rest parentPath currentPath ih1 ih2 =>
    intro t ht
    rw [processFolder] at ht
    rcases List.mem_cons.mp ht with ht | ht
    · subst ht
      refine WellSorted.mk _ _ _ _ _ (List.sorted_insertionSort _ _) ?_
      intro c hc
      rw [List.mem_insertionSort] at hc
      rcases List.mem_append.mp hc with h | h
      · exact ih1 _ h
      · rcases List.mem_map.mp h with ⟨f, _, rfl⟩
        exact wellSorted_fileToTreeNode f
    · exact ih2 _ ht

/-! ## Analysis snapshots and the status store (FileTreePanel.tsx lines 61 to 70,
135 to 144 and 218 to 224) -/

/-- Status values of an analysis snapshot (FileTreePanel.tsx line 62). -/
inductive Status where
  | processing
  | completed
  | error
deriving DecidableEq, Repr

/-- Analysis snapshot: interface AnalysisStatus (FileTreePanel.tsx lines 61
to 70). The untyped graph field and the timestamp strings are not read by any
modelled code path and are omitted. -/
structure AnalysisStatus where
  status : Status
  progress : ℚ
  error : Option String
  message : Option String
  «structure» : Option RepoStructure

/-- Events that write the analysisStatus state: a WebSocket message whose
payload parsed successfully (ws.onmessage, FileTreePanel.tsx lines 135 to
144) and the effect that copies a freshly resolved poll response into the
state (FileTreePanel.tsx lines 218 to 224). -/
inductive UpdateEvent where
  | pushMessage (snapshot : AnalysisStatus)
  | pollResolve (snapshot : AnalysisStatus)

/-- Snapshot carried by an update event. -/
def UpdateEvent.snapshot : UpdateEvent → AnalysisStatus
  | .pushMessage s => s
  | .pollResolve s => s

/-- Processing of one update event. Both handlers call setAnalysisStatus with
the incoming snapshot unconditionally; neither consults the snapshot already
held. -/
def applyEvent (st : Option AnalysisStatus) (e : UpdateEvent) : Option AnalysisStatus :=
  match e with
  | .pushMessage s => some s
  | .pollResolve s => some s

/-- State of analysisStatus after processing a sequence of update events in
order. -/
def runEvents (st : Option AnalysisStatus) (es : List UpdateEvent) : Option AnalysisStatus :=
  es.foldl applyEvent st

/-- Sample snapshot delivered by a push message. -/
def pushSnapshotA : AnalysisStatus := ⟨.completed, 100, none, none, none⟩

/-- Sample older snapshot carried by a poll response that resolves late. -/
def pollSnapshotB : AnalysisStatus := ⟨.processing, 40, none, none, none⟩

/-! ## Polling activity (FileTreePanel.tsx lines 189 to 216) -/

/-- Embedding of the refetchInterval callback of the structure query: 2000
when the held query data has status processing, otherwise false, here none
(FileTreePanel.tsx lines 204 to 207). -/
def refetchInterval (data : Option AnalysisStatus) : Option Nat :=
  match data with
  | some d => if d.status = Status.processing then some 2000 else none
  | none => none

/-- Whether the periodic poll is active: the query is enabled exactly when a
repository id is set (enabled equals the truthiness of repoId,
FileTreePanel.tsx line 203) and refetches periodically exactly when
refetchInterval returns a number. The source passes no dependency on the
WebSocket connection state to the query, so the wsConnected argument is bound
but never read, exactly as in the component. -/
def pollingActive (repoId : Option String) (wsConnected : Bool)
    (data : Option AnalysisStatus) : Bool :=
  repoId.isSome && (refetchInterval data).isSome

/-! ## WebSocket reconnection (FileTreePanel.tsx lines 98 to 167) -/

/-- Maximum number of reconnection attempts (FileTreePanel.tsx line 100). -/
def MAX_RECONNECT_ATTEMPTS : Nat := 5

/-- Error message set while a reconnection is being scheduled
(FileTreePanel.tsx line 160). -/
def reconnectingMsg (n : Nat) : String :=
  "Connection lost. Reconnecting... (Attempt " ++ toString n ++ "/" ++
    toString MAX_RECONNECT_ATTEMPTS ++ ")"

/-- Terminal error message set once the attempt budget is exhausted
(FileTreePanel.tsx line 165). -/
def failedMsg : String :=
  "Failed to establish connection after multiple attempts. Please refresh the page."

/-- Connection related component state: the reconnect attempt counter held in
reconnectAttemptsRef, the wsError message, and a history counter of how many
reconnection attempts have ever been scheduled by setTimeout. -/
structure WSConnState where
  reconnectAttempts : Nat
  wsError : Option String
  scheduledTotal : Nat
deriving DecidableEq, Repr

/-- Embedding of the ws.onclose handler (FileTreePanel.tsx lines 152 to 167):
when the close code is not 1000 and the attempt counter is below the maximum,
the counter is incremented, the reconnecting message is shown and one more
reconnection is scheduled; otherwise, when the counter has reached the
maximum, the terminal failure message is shown; otherwise nothing changes. -/
def onClose (st : WSConnState) (code : Nat) : WSConnState :=
  if code ≠ 1000 ∧ st.reconnectAttempts < MAX_RECONNECT_ATTEMPTS then
    { reconnectAttempts := st.reconnectAttempts + 1,
      wsError := some (reconnectingMsg (st.reconnectAttempts + 1)),
      scheduledTotal := st.scheduledTotal + 1 }
  else if MAX_RECONNECT_ATTEMPTS ≤ st.reconnectAttempts then
    { st with wsError := some failedMsg }
  else st

/-- Embedding of the ws.onopen handler: clears the error and resets the
attempt counter (FileTreePanel.tsx lines 128 to 133). -/
def onOpen (st : WSConnState) : WSConnState :=
  { st with reconnectAttempts := 0, wsError := none }

/-- Initial connection state of a fresh session. -/
def initialWSState : WSConnState := ⟨0, none, 0⟩

/-- State after n consecutive abnormal closures, close code 1006, with no
intervening successful open. -/
def abnormalRun : Nat → WSConnState
  | 0 => initialWSState
  | n + 1 => onClose (abnormalRun n) 1006

theorem abnormalRun_counters (n : Nat) :
    (abnormalRun n).reconnectAttempts = min n 5 ∧
      (abnormalRun n).scheduledTotal = min n 5 := by
  induction n with
  | zero => simp [abnormalRun, initialWSState]
  | succ n ih =>
    rcases ih with ⟨h1, h2⟩
    rw [abnormalRun, onClose]
    by_cases h : (abnormalRun n).reconnectAttempts < MAX_RECONNECT_ATTEMPTS
    · rw [if_pos ⟨by decide, h⟩]
      simp only [MAX_RECONNECT_ATTEMPTS] at h
      constructor <;> simp <;> omega
    · rw [if_neg (by tauto), if_pos (le_of_not_lt h)]
      simp only [MAX_RECONNECT_ATTEMPTS] at h
      constructor <;> simp [h1, h2] <;> omega

/-! ## Graph fetch postprocessing and simulation rebuild (GraphPanel.tsx) -/

/-- Node of the flat dependency graph with its simulated position: interface
GraphNode extending SimulationNodeDatum (GraphPanel.tsx lines 324 to 329).
Only the position fields are relevant to the layout claims. -/
structure SimNode where
  id : String
  name : String
  x : ℚ
  y : ℚ
deriving DecidableEq, Repr

/-- Embedding of the fetch postprocessing of the flat-graph panel, which
assigns default positions by running forEach over the fetched nodes and
setting x and y to zero (GraphPanel.tsx lines 366 to 373). -/
def prepareFetchedNodes (nodes : List SimNode) : List SimNode :=
  nodes.map (fun n => { n with x := 0, y := 0 })

/-- Rebuild of the simulation node set when a new snapshot arrives. The
effect clears the previous rendering and builds the new simulation from the
freshly fetched and prepared nodes only (GraphPanel.tsx lines 384 to 402);
the previous simulation nodes are bound here to make the continuity claim
statable but are never read, exactly as in the source. -/
def rebuildSimNodes (previousNodes newNodes : List SimNode) : List SimNode :=
  prepareFetchedNodes newNodes

/-- Node of the graph payload before endpoint resolution (GraphPanel.tsx
lines 7 to 12). -/
structure RawNode where
  id : String
  type : String
  name : String
deriving DecidableEq, Repr

/-- Edge of the graph payload, endpoints given as id strings (GraphPanel.tsx
lines 51 to 55). -/
structure RawEdge where
  source : String
  target : String
  type : String
deriving DecidableEq, Repr

/-- Edge after the endpoint resolution performed in the query function: each
endpoint is the result of nodes.find on the id, which is undefined, here
none, when no node matches (GraphPanel.tsx lines 48 to 56). -/
structure ResolvedEdge where
  source : Option RawNode
  target : Option RawNode
  type : String
deriving DecidableEq, Repr

/-- Embedding of the edge mapping of the query function (GraphPanel.tsx
lines 51 to 55): every edge of the payload is kept and its endpoints are
resolved with find; no edge is filtered out. -/
def resolveEdges (nodes : List RawNode) (edges : List RawEdge) : List ResolvedEdge :=
  edges.map (fun e =>
    ⟨nodes.find? (fun n => n.id == e.source), nodes.find? (fun n => n.id == e.target), e.type⟩)

/-! ## Shared selection store (store.ts lines 1 to 22, GraphPanel.tsx lines 208 to 211) -/

/-- Node value held by the selection store: interface Node with id, type,
name and an optional metadata record (store.ts lines 3 to 8). The untyped
metadata record is embedded as an association list. -/
structure SelNode where
  id : String
  type : String
  name : String
  data : Option (List (String × String))
deriving DecidableEq, Repr

/-- State of the zustand store: selectedNode and graphLevel (store.ts lines
10 to 15). -/
structure GraphState where
  selectedNode : Option SelNode
  graphLevel : Nat
deriving DecidableEq, Repr

/-- Initial store state (store.ts lines 18 to 19). -/
def initialGraphState : GraphState := ⟨none, 1⟩

/-- Embedding of the setSelectedNode action (store.ts line 20). -/
def setSelectedNode (st : GraphState) (n : Option SelNode) : GraphState :=
  { st with selectedNode := n }

/-- Pointer events on the rendered graph: a click on a node circle, or a
click on empty canvas space. -/
inductive CanvasEvent where
  | nodeClick (d : SelNode)
  | backgroundClick

/-- Effect of a pointer click on the store. The component installs a click
handler only on the node circles, which calls setSelectedNode with the
clicked datum (GraphPanel.tsx lines 208 to 211 and 442 to 447); no handler is
installed on the svg background, so a click on empty canvas space reaches no
handler and leaves the store unchanged. -/
def handleCanvasEvent (st : GraphState) (e : CanvasEvent) : GraphState :=
  match e with
  | .nodeClick d => setSelectedNode st (some d)
  | .backgroundClick => st

/-! ## File size formatting (FileTreePanel.tsx lines 292 to 303,
InspectorPanel.tsx lines 130 to 141) -/

/-- Loop of formatFileSize: while the size is at least 1024 and the unit
index is below the index of the last unit, divide by 1024 and advance the
unit (FileTreePanel.tsx lines 297 to 300). -/
def fmtLoop (size : ℚ) (unitIndex : Nat) : ℚ × Nat :=
  if h : 1024 ≤ size ∧ unitIndex < 3 then
    fmtLoop (size / 1024) (unitIndex + 1)
  else
    (size, unitIndex)
termination_by 3 - unitIndex
decreasing_by omega

/-- Units array of formatFileSize (FileTreePanel.tsx line 293). -/
def fileSizeUnits : List String := ["B", "KB", "MB", "GB"]

/-- Rounding to one decimal place as performed by toFixed with argument one
on a nonnegative value: the nearest multiple of one tenth, ties away from
zero. -/
def roundTo1 (q : ℚ) : ℚ := (round (10 * q) : ℤ) / 10

/-- Embedding of formatFileSize (FileTreePanel.tsx lines 292 to 303): the
pair of the displayed numeric value, after rounding to one decimal place, and
the chosen unit string. -/
def formatFileSize (bytes : ℚ) : ℚ × String :=
  let r := fmtLoop bytes 0
  (roundTo1 r.1, fileSizeUnits.getD r.2 "")

theorem fmtLoop_bounds (size : ℚ) (unitIndex : Nat) (h : unitIndex ≤ 3) :
    (fmtLoop size unitIndex).2 ≤ 3 ∧
      ((fmtLoop size unitIndex).2 < 3 → (fmtLoop size unitIndex).1 < 1024) := by
  induction size, unitIndex using fmtLoop.induct with
  | case1 size unitIndex hc ih =>
    rw [fmtLoop, dif_pos hc]
    exact ih (by omega)
  | case2 size unitIndex hc =>
    rw [fmtLoop, dif_neg hc]
    refine ⟨h, ?_⟩
    intro hlt
    by_contra hge
    exact hc ⟨le_of_not_lt hge, hlt⟩

/-! ## Folder expansion toggle (FileTreePanel.tsx lines 226 to 236) -/

/-- Embedding of handleFolderClick: the updater copies the previous set and
deletes the folder id when present, otherwise adds it (FileTreePanel.tsx
lines 226 to 236). -/
def handleFolderClick (folderId : String) (prev : Finset String) : Finset String :=
  if folderId ∈ prev then prev.erase folderId else insert folderId prev

/-! ## Sample inputs used by concrete theorems -/

/-- Snapshot structure of the end-to-end scenario of the specification: one
root folder src whose nested files array holds the single file src slash a.py,
and an empty top-level files array. -/
def c2Input : RepoStructure :=
  ⟨"", "", "", "", [("src", FolderData.mk [] [⟨"src/a.py", "h1", 120⟩])], []⟩

/-- Variant of the scenario snapshot in which the file is also listed in the
top-level flat files array, the place the conversion actually reads. -/
def c2Amended : RepoStructure :=
  ⟨"", "", "", "", [("src", FolderData.mk [] [⟨"src/a.py", "h1", 120⟩])],
    [⟨"src/a.py", "h1", 120⟩]⟩

/-- Snapshot with a single empty root folder, used to exhibit a concrete
well-sorted output. -/
def c7Sample : RepoStructure :=
  ⟨"", "", "", "", [("src", FolderData.mk [] [])], []⟩

/-- Sample node datum used by the selection theorems. -/
def sampleSelNode : SelNode := ⟨"src/a.py", "file", "a.py", none⟩

/-! ## Claim theorems -/

/-- Claim C1, counterexample. After a push snapshot for the session has been
applied, processing a late poll response overwrites the analysis-status state
with the poll snapshot: the final state is the poll snapshot, not the
push-delivered one, refuting the claim that the late poll response does not
overwrite it. -/
theorem latePoll_overwrites_push_cex :
    runEvents none
        [UpdateEvent.pushMessage pushSnapshotA, UpdateEvent.pollResolve pollSnapshotB] =
      some pollSnapshotB ∧ pollSnapshotB ≠ pushSnapshotA := by
  refine ⟨rfl, fun h => ?_⟩
  exact Status.noConfusion (congrArg AnalysisStatus.status h)

/-- Claim C1, amended. The analysis-status state is last-write-wins in
processing order with no supersession check: after any sequence of update
events the held state equals the snapshot of the last event processed, so a
poll response that resolves after a push snapshot was applied replaces that
push snapshot. -/
theorem runEvents_last_write_wins (st : Option AnalysisStatus)
    (es : List UpdateEvent) (e : UpdateEvent) :
    runEvents st (es ++ [e]) = some e.snapshot := by
  rw [runEvents, List.foldl_append]
  cases e <;> rfl

/-- Witness for the amended claim C1 at a concrete trace: a push of snapshot
A followed by a late poll resolving with snapshot B leaves the state at B. -/
theorem runEvents_last_write_wins_witness :
    runEvents none
        ([UpdateEvent.pushMessage pushSnapshotA] ++ [UpdateEvent.pollResolve pollSnapshotB]) =
      some pollSnapshotB :=
  runEvents_last_write_wins none [UpdateEvent.pushMessage pushSnapshotA]
    (UpdateEvent.pollResolve pollSnapshotB)

/-- Claim C2, counterexample. On the exact snapshot of the claim, where the
file appears only in the nested files array of the folder and the top-level
files array is empty, the conversion produces the folder node src with no
children at all: no file node src slash a.py exists anywhere in the output. -/
theorem convert_nested_files_ignored_cex :
    convertToTreeNodes (some c2Input) = [TreeNode.mk "src" "src" .folder [] none] ∧
      forestIds (convertToTreeNodes (some c2Input)) = ["src"] := by
  constructor <;>
    simp [convertToTreeNodes, processFolder, forestIds, joinPath, fileToTreeNode,
      baseName, baseNameChars, parentDir, parentDirChars, containsSlash,
      List.insertionSort, List.orderedInsert, c2Input]

/-- Claim C2, amended. The conversion reads file entries only from the
top-level flat files array of the snapshot and ignores the per-folder nested
files arrays; when the file src slash a.py is listed in the top-level array,
the conversion produces exactly the folder node src containing the file node
src slash a.py as its only child. -/
theorem convert_top_level_files :
    convertToTreeNodes (some c2Amended) =
      [TreeNode.mk "src" "src" .folder
        [TreeNode.mk "src/a.py" "a.py" .file [] (some ⟨120, "h1"⟩)] none] := by
  simp [convertToTreeNodes, processFolder, joinPath, fileToTreeNode,
    baseName, baseNameChars, parentDir, parentDirChars, containsSlash,
    List.insertionSort, List.orderedInsert, c2Amended, nodeLe]

/-- Claim C3, counterexample. After exactly 5 consecutive abnormal closures
with no intervening open, the manager has not reached the terminal failed
state: the error shown is the fifth reconnecting message, not the terminal
failure message, and a fifth reconnection attempt has been scheduled and is
still pending. -/
theorem reconnect_after_five_closures_cex :
    (abnormalRun 5).wsError = some (reconnectingMsg 5) ∧
      (abnormalRun 5).wsError ≠ some failedMsg ∧
      (abnormalRun 5).scheduledTotal = 5 := by
  decide

/-- Claim C3, amended. The terminal failure message appears only after the
sixth consecutive abnormal closure, that is after the initial connection and
all 5 scheduled reconnection attempts have failed; the total number of
reconnection attempts ever scheduled is capped at 5, so no 6th reconnection
attempt is ever scheduled; and a caller-initiated close with the normal code
1000 never schedules a reconnection attempt and never changes the attempt
counter. -/
theorem reconnect_failed_after_six :
    (abnormalRun 6).wsError = some failedMsg ∧
      (∀ n, (abnormalRun n).scheduledTotal = min n 5) ∧
      (∀ st, (onClose st 1000).scheduledTotal = st.scheduledTotal ∧
        (onClose st 1000).reconnectAttempts = st.reconnectAttempts) := by
  refine ⟨by decide, fun n => (abnormalRun_counters n).2, fun st => ?_⟩
  rw [onClose, if_neg (by simp)]
  by_cases h : MAX_RECONNECT_ATTEMPTS ≤ st.reconnectAttempts
  · rw [if_pos h]; exact ⟨rfl, rfl⟩
  · rw [if_neg h]; exact ⟨rfl, rfl⟩

/-- Witness for the amended claim C3 at concrete inputs: after 7 abnormal
closures the total of scheduled reconnection attempts is still min 7 5, that
is 5. -/
theorem reconnect_failed_after_six_witness :
    (abnormalRun 7).scheduledTotal = min 7 5 :=
  reconnect_failed_after_six.2.1 7

/-- Claim C4, counterexample. A node whose id survives from snapshot S1 to
snapshot S2 does not keep its simulated position: with the node at position
5, 7 at the end of the S1 run, rebuilding for S2 leaves it at position 0, 0,
because the fetch postprocessing assigns x and y to zero for every node. -/
theorem rebuild_resets_survivor_position_cex :
    rebuildSimNodes [⟨"src/a.py", "a.py", 5, 7⟩] [⟨"src/a.py", "a.py", 0, 0⟩] =
        [⟨"src/a.py", "a.py", 0, 0⟩] ∧
      ((5 : ℚ), (7 : ℚ)) ≠ ((0 : ℚ), (0 : ℚ)) :=
  ⟨rfl, by decide⟩

/-- Claim C4, amended. Rebuilding the layout for a new snapshot resets the
position of every node, surviving or not, to the origin: the rebuilt node
set does not depend on the previous simulation nodes at all, and every
rebuilt node has x and y equal to zero. -/
theorem rebuildSimNodes_resets_all_positions (old old2 fetched : List SimNode) :
    rebuildSimNodes old fetched = rebuildSimNodes old2 fetched ∧
      ∀ n ∈ rebuildSimNodes old fetched, n.x = 0 ∧ n.y = 0 := by
  refine ⟨rfl, ?_⟩
  intro n hn
  rcases List.mem_map.mp hn with ⟨m, _, rfl⟩
  exact ⟨rfl, rfl⟩

/-- Witness for the amended claim C4 at a concrete input: the node fetched at
position 3, 4 is carried into the rebuilt simulation at position 0, 0. -/
theorem rebuildSimNodes_resets_all_positions_witness :
    (⟨"a", "a", 0, 0⟩ : SimNode).x = 0 ∧ (⟨"a", "a", 0, 0⟩ : SimNode).y = 0 :=
  (rebuildSimNodes_resets_all_positions [] [] [⟨"a", "a", 3, 4⟩]).2
    ⟨"a", "a", 0, 0⟩ (by decide)

/-- Claim C5, evaluation at the failing input. An edge whose target id
matches no node in the snapshot is not excluded from the built graph: the
query postprocessing keeps the edge and resolves its target to undefined,
here none. The simulation tick handler then reads the x coordinate through
that undefined endpoint, which throws at runtime, contradicting the stated
policy that dangling edges are dropped and no error is raised. -/
theorem resolveEdges_keeps_dangling_edge :
    resolveEdges [⟨"a", "file", "a"⟩] [⟨"a", "missing", "imports"⟩] =
        [⟨some ⟨"a", "file", "a"⟩, none, "imports"⟩] ∧
      (resolveEdges [⟨"a", "file", "a"⟩] [⟨"a", "missing", "imports"⟩]).length = 1 := by
  decide

/-- Claim C6, counterexample. With a session id set, the held snapshot in
status processing and the push connection open, the periodic poll is still
active: the query takes no account of the WebSocket connection state, so an
open push connection does not cancel polling. -/
theorem polling_active_while_ws_open_cex :
    pollingActive (some "abc123") true (some pollSnapshotB) = true := by
  decide

/-- Claim C6, amended. The periodic poll is active exactly when a session id
is set and the held query data has status processing; it therefore stops
once the status is completed or error, and it is disabled when no session id
is set, but it is not cancelled while a push connection is open: polling
activity is independent of the WebSocket connection state. -/
theorem pollingActive_spec (r : Option String) (w w₂ : Bool) (s : AnalysisStatus) :
    pollingActive r w none = false ∧
      pollingActive r w (some s) = (r.isSome && decide (s.status = Status.processing)) ∧
      pollingActive r w (some s) = pollingActive r w₂ (some s) := by
  refine ⟨by simp [pollingActive, refetchInterval], ?_, rfl⟩
  rcases s with ⟨st, p, e, m, str⟩
  cases st <;> simp [pollingActive, refetchInterval]

/-- Witness for the amended claim C6 at concrete inputs: with a session id
set but the held snapshot completed, polling is inactive regardless of the
WebSocket state. -/
theorem pollingActive_spec_witness :
    pollingActive (some "abc123") true (some pushSnapshotA) =
      ((some "abc123").isSome && decide (pushSnapshotA.status = Status.processing)) :=
  (pollingActive_spec (some "abc123") true false pushSnapshotA).2.1

/-- Claim C7, confirmed. The nested-structure conversion is deterministic,
two applications to the same input being definitionally the same value, and
every children list in its output, the root list included, is sorted by the
child comparator: folders before files and otherwise by name. -/
theorem convertToTreeNodes_deterministic_sorted (s : Option RepoStructure) :
    convertToTreeNodes s = convertToTreeNodes s ∧
      List.Sorted nodeLe (convertToTreeNodes s) ∧
      ∀ t ∈ convertToTreeNodes s, WellSorted t := by
  refine ⟨rfl, ?_, ?_⟩
  · cases s with
    | none => simp [convertToTreeNodes]
    | some st => exact List.sorted_insertionSort _ _
  · cases s with
    | none => intro t ht; simp [convertToTreeNodes] at ht
    | some st =>
      intro t ht
      simp only [convertToTreeNodes, List.mem_insertionSort] at ht
      rcases List.mem_append.mp ht with h | h
      · exact processFolder_wellSorted _ _ _ _ h
      · rcases List.mem_map.mp h with ⟨f, _, rfl⟩
        exact wellSorted_fileToTreeNode f

/-- Witness for claim C7 at a concrete input: the node produced for the
single empty root folder of the sample snapshot is well sorted. -/
theorem convertToTreeNodes_deterministic_sorted_witness :
    WellSorted (TreeNode.mk "src" "src" .folder [] none) :=
  (convertToTreeNodes_deterministic_sorted (some c7Sample)).2.2 _ (by
    simp [convertToTreeNodes, processFolder, joinPath, containsSlash,
      List.insertionSort, List.orderedInsert, c7Sample])

/-- Claim C8, counterexample. A click on empty canvas space does not clear
the shared selection: no handler is installed on the background, so the
previously selected node remains selected, refuting the claim that such a
click sets the selection to none. -/
theorem background_click_does_not_clear_cex :
    (handleCanvasEvent ⟨some sampleSelNode, 1⟩ .backgroundClick).selectedNode =
        some sampleSelNode ∧
      some sampleSelNode ≠ (none : Option SelNode) := by
  refine ⟨rfl, ?_⟩
  decide

/-- Claim C8, amended. A click on a rendered node sets the shared selection
to exactly that node datum, with its id, type, name and metadata; a click on
empty canvas space reaches no handler and leaves the whole store state, the
selection included, unchanged rather than clearing it. -/
theorem handleCanvasEvent_selection (st : GraphState) (d : SelNode) :
    (handleCanvasEvent st (.nodeClick d)).selectedNode = some d ∧
      handleCanvasEvent st .backgroundClick = st :=
  ⟨rfl, rfl⟩

/-- Witness for the amended claim C8 at concrete inputs: clicking the sample
node from the initial store state selects it. -/
theorem handleCanvasEvent_selection_witness :
    (handleCanvasEvent initialGraphState (.nodeClick sampleSelNode)).selectedNode =
      some sampleSelNode :=
  (handleCanvasEvent_selection initialGraphState sampleSelNode).1

/-- Claim C9, counterexample. The displayed numeric value can reach 1024 on
a unit below GB: 1048525 bytes divide once to about 1023.95, which the
one-decimal rounding of toFixed displays as 1024.0 with unit KB, refuting
the claim that the displayed value is strictly below 1024 whenever the unit
is not GB. -/
theorem formatFileSize_rounds_to_1024_cex :
    formatFileSize 1048525 = (1024, "KB") ∧ "KB" ≠ "GB" := by
  refine ⟨?_, by decide⟩
  rw [formatFileSize, fmtLoop]
  norm_num
  rw [fmtLoop]
  norm_num [roundTo1, fileSizeUnits, round_eq]

/-- Claim C9, amended. For every byte count the loop of formatFileSize
terminates with a unit index of at most 3, so the chosen unit is always one
of B, KB, MB and GB and never goes beyond GB; and whenever the chosen unit is
not GB the numeric value before rounding is strictly below 1024. The value
displayed after rounding to one decimal place can nevertheless equal 1024 on
a unit below GB. -/
theorem formatFileSize_unit_bounds (bytes : ℚ) :
    (fmtLoop bytes 0).2 ≤ 3 ∧
      ((fmtLoop bytes 0).2 < 3 → (fmtLoop bytes 0).1 < 1024) ∧
      (formatFileSize bytes).2 ∈ fileSizeUnits := by
  have h := fmtLoop_bounds bytes 0 (by omega)
  refine ⟨h.1, h.2, ?_⟩
  have hk : (fmtLoop bytes 0).2 ≤ 3 := h.1
  simp only [formatFileSize]
  set k := (fmtLoop bytes 0).2 with hkdef
  interval_cases k <;> decide

/-- Witness for the amended claim C9 at a concrete input: for 2048 bytes the
chosen unit is one of the four unit strings. -/
theorem formatFileSize_unit_bounds_witness :
    (formatFileSize 2048).2 ∈ fileSizeUnits :=
  (formatFileSize_unit_bounds 2048).2.2

/-- Claim C10, confirmed. One application of the folder toggle adds the
folder id when absent and removes it when present, leaves every other id
unchanged, and applying the toggle twice with the same id returns the
original set. -/
theorem handleFolderClick_spec (prev : Finset String) (folderId : String) :
    (folderId ∈ handleFolderClick folderId prev ↔ folderId ∉ prev) ∧
      (∀ j, j ≠ folderId → (j ∈ handleFolderClick folderId prev ↔ j ∈ prev)) ∧
      handleFolderClick folderId (handleFolderClick folderId prev) = prev := by
  unfold handleFolderClick
  by_cases h : folderId ∈ prev
  · rw [if_pos h]
    refine ⟨by simp [h], fun j hj => by simp [Finset.mem_erase, hj], ?_⟩
    rw [if_neg (by simp), Finset.insert_erase h]
  · rw [if_neg h]
    refine ⟨by simp [h], fun j hj => by simp [Finset.mem_insert, hj], ?_⟩
    rw [if_pos (Finset.mem_insert_self _ _), Finset.erase_insert h]

/-- Witness for claim C10 at concrete inputs: toggling the id src on the
empty set does not affect membership of the distinct id docs. -/
theorem handleFolderClick_spec_witness :
    "docs" ∈ handleFolderClick "src" ∅ ↔ "docs" ∈ (∅ : Finset String) :=
  (handleFolderClick_spec ∅ "src").2.1 "docs" (by decide)

end CodeScope
